import Mathlib

/-!
Shallow embedding of the `speaker-for-sce` music-player UI
(`src/frontend/app/routes/home.tsx`) and of the documented remote-control
HTTP API (`src/unnamed/part_000`, a README; the server implementation is
not part of the sources).

JavaScript numbers are modelled as rationals (`ℚ`); the handlers do no
floating-point-specific arithmetic beyond division, truncating modulo and
floor, which are modelled exactly.  The native `HTMLAudioElement` handle
(`audioRef.current`) is modelled as `Option AudioElement`: `none` is the
detached/null ref.  Calls to the handle's imperative methods `play()` and
`pause()` are recorded as an explicit trace of `NativeCall`s.
-/

/-- One entry of `sampleTracks` in `home.tsx`: id, title, artist, url. -/
structure Track where
  id : Nat
  title : String
  artist : String
  url : String
deriving Repr, DecidableEq

/-- The mutable fields of the native playback handle that `home.tsx`
assigns: `src`, `currentTime`, `volume`. -/
structure AudioElement where
  src : String
  currentTime : ℚ
  volume : ℚ
deriving Repr, DecidableEq

/-- An invocation of one of the native handle's playback methods. -/
inductive NativeCall where
  | play
  | pause
deriving Repr, DecidableEq

/-- The React component's local state in `home.tsx` (`useState` hooks),
together with the current value of `audioRef`. -/
structure PlayerState where
  isPlaying : Bool
  currentTime : ℚ
  duration : ℚ
  volume : ℚ
  searchQuery : String
  currentTrack : Track
  audio : Option AudioElement
deriving Repr, DecidableEq

/-- The hard-coded `sampleTracks` list of `home.tsx`. -/
def sampleTracks : List Track :=
  [ { id := 1, title := "Track 1", artist := "Artist 1",
      url := "https://www.soundjay.com/misc/sounds/bell-ringing-05.wav" },
    { id := 2, title := "Track 2", artist := "Artist 2",
      url := "https://www.soundjay.com/misc/sounds/bell-ringing-05.wav" },
    { id := 3, title := "Track 3", artist := "Artist 3",
      url := "https://www.soundjay.com/misc/sounds/bell-ringing-05.wav" } ]

/-- `leadsWith h s` is true when the list `s` is an initial segment of `h`
(character-by-character comparison, as JavaScript substring search does). -/
def leadsWith : List Char → List Char → Bool
  | _, [] => true
  | [], _ :: _ => false
  | a :: as, b :: bs => a == b && leadsWith as bs

/-- `hasSub h s` is true when `s` occurs contiguously inside `h`:
the model of JavaScript `String.prototype.includes`. -/
def hasSub : List Char → List Char → Bool
  | [], s => s.isEmpty
  | c :: t, s => leadsWith (c :: t) s || hasSub t s

/-- JavaScript `hay.includes(sub)`. -/
def strIncludes (hay sub : String) : Bool :=
  hasSub hay.data sub.data

/-- JavaScript `String.prototype.toLowerCase`, modelled as the
character-wise lower-casing (the sample data is ASCII, where the two
agree). -/
def jsToLower (s : String) : String :=
  String.mk (s.data.map Char.toLower)

/-- The filter predicate of `filteredTracks` in `home.tsx`:
`track.title.toLowerCase().includes(q.toLowerCase()) ||
 track.artist.toLowerCase().includes(q.toLowerCase())`. -/
def trackMatches (q : String) (t : Track) : Bool :=
  strIncludes (jsToLower t.title) (jsToLower q) ||
  strIncludes (jsToLower t.artist) (jsToLower q)

/-- `filteredTracks` of `home.tsx`: `sampleTracks.filter(...)`. -/
def filteredTracks (q : String) : List Track :=
  sampleTracks.filter (trackMatches q)

/-- `togglePlay` of `home.tsx`: when the ref is attached, call `pause()`
if `isPlaying` else `play()`, then flip the flag; when the ref is null,
do nothing.  The second component is the trace of native calls issued. -/
def togglePlay (s : PlayerState) : PlayerState × List NativeCall :=
  match s.audio with
  | none => (s, [])
  | some _ =>
      if s.isPlaying then
        ({ s with isPlaying := !s.isPlaying }, [NativeCall.pause])
      else
        ({ s with isPlaying := !s.isPlaying }, [NativeCall.play])

/-- `handleSeek` of `home.tsx`: with `v` the parsed slider value, when the
ref is attached assign `audio.currentTime = v` and `setCurrentTime(v)`;
otherwise do nothing. -/
def handleSeek (v : ℚ) (s : PlayerState) : PlayerState :=
  match s.audio with
  | none => s
  | some a => { s with currentTime := v, audio := some { a with currentTime := v } }

/-- `handleVolumeChange` of `home.tsx`: `setVolume(v)` unconditionally,
then assign `audio.volume = v` when the ref is attached. -/
def handleVolumeChange (v : ℚ) (s : PlayerState) : PlayerState :=
  match s.audio with
  | none => { s with volume := v }
  | some a => { s with volume := v, audio := some { a with volume := v } }

/-- `changeTrack` of `home.tsx`: `setCurrentTrack(track)`,
`setIsPlaying(false)`, `setCurrentTime(0)`, and `audio.src = track.url`
when the ref is attached. -/
def changeTrack (t : Track) (s : PlayerState) : PlayerState :=
  match s.audio with
  | none => { s with currentTrack := t, isPlaying := false, currentTime := 0 }
  | some a =>
      { s with currentTrack := t, isPlaying := false, currentTime := 0,
               audio := some { a with src := t.url } }

/-- The `ended`-event handler registered in the effect of `home.tsx`:
`() => setIsPlaying(false)`. -/
def handleEnded (s : PlayerState) : PlayerState :=
  { s with isPlaying := false }

/-- The search box's `onChange` handler: `setSearchQuery(value)`. -/
def setSearchQuery (q : String) (s : PlayerState) : PlayerState :=
  { s with searchQuery := q }

/-- JavaScript `Math.trunc` (rounding toward zero), used by the semantics
of the `%` operator. -/
def jsTrunc (x : ℚ) : ℤ :=
  if 0 ≤ x then ⌊x⌋ else ⌈x⌉

/-- JavaScript remainder `a % b`: `a - b * trunc(a / b)`. -/
def jsMod (a b : ℚ) : ℚ :=
  a - b * (jsTrunc (a / b) : ℤ)

/-- JavaScript `str.padStart(2, "0")`. -/
def padStart2 (s : String) : String :=
  if s.length < 2 then String.mk (List.replicate (2 - s.length) '0') ++ s else s

/-- `formatTime` of `home.tsx`:
`minutes = Math.floor(time / 60)`, `seconds = Math.floor(time % 60)`,
result "minutes:seconds" with the seconds padded to two digits. -/
def formatTime (time : ℚ) : String :=
  let minutes : ℤ := ⌊time / 60⌋
  let seconds : ℤ := ⌊jsMod time 60⌋
  toString minutes ++ ":" ++ padStart2 (toString seconds)

/-- The spec's invariant on the displayed state: volume in `[0,1]` and
elapsed time in `[0, duration]`. -/
def Invariant (s : PlayerState) : Prop :=
  0 ≤ s.volume ∧ s.volume ≤ 1 ∧ 0 ≤ s.currentTime ∧ s.currentTime ≤ s.duration

/-- `OccursIn sub hay` states, in the spec's terms, that `sub` occurs as a
contiguous substring of `hay`. -/
def OccursIn (sub hay : String) : Prop :=
  ∃ l r, hay.data = l ++ sub.data ++ r

/-- The spec's filter criterion: the search string occurs, case
insensitively, in the track's title or artist. -/
def SpecMatch (q : String) (t : Track) : Prop :=
  OccursIn (jsToLower q) (jsToLower t.title) ∨
  OccursIn (jsToLower q) (jsToLower t.artist)

/-- A concrete attached audio element, for witnesses and counterexamples. -/
def cxAudio : AudioElement :=
  { src := "https://www.soundjay.com/misc/sounds/bell-ringing-05.wav",
    currentTime := 3, volume := 1/2 }

/-- A concrete player state with the ref attached, duration 10s,
satisfying the invariant. -/
def cxState : PlayerState :=
  { isPlaying := false, currentTime := 3, duration := 10, volume := 1/2,
    searchQuery := "",
    currentTrack := { id := 1, title := "Track 1", artist := "Artist 1",
                      url := "https://www.soundjay.com/misc/sounds/bell-ringing-05.wav" },
    audio := some cxAudio }

/-- The same state with a detached (null) audio ref. -/
def cxStateNoAudio : PlayerState :=
  { cxState with audio := none }

/-- Modelled from the spec: the repository documents the remote-control
HTTP API only in a README (`src/unnamed/part_000`); the server
(`api_server.py`) is not among the sources.  The player state visible
through that API: whether playback is paused, plus the fields reported by
`GET /current` that resume/pause do not touch (current track name and the
0-100 volume). -/
structure ApiPlayer where
  paused : Bool
  trackName : String
  volume100 : Nat
deriving Repr, DecidableEq

/-- Modelled from the spec: `POST /resume` — "If paused → resume
playback, else throw error". -/
def apiResume (p : ApiPlayer) : Except String ApiPlayer :=
  if p.paused then Except.ok { p with paused := false }
  else Except.error "Cannot resume: playback is not paused"

/-- Modelled from the spec: `POST /pause` — "If not paused → pause
playback, else throw error". -/
def apiPause (p : ApiPlayer) : Except String ApiPlayer :=
  if p.paused then Except.error "Cannot pause: playback is already paused"
  else Except.ok { p with paused := true }

theorem leadsWith_iff (s h : List Char) :
    leadsWith h s = true ↔ ∃ r, h = s ++ r := by
  induction s generalizing h with
  | nil =>
      cases h <;> simp [leadsWith]
  | cons b bs ih =>
      cases h with
      | nil => simp [leadsWith]
      | cons a as =>
          simp only [leadsWith, Bool.and_eq_true, beq_iff_eq, ih, List.cons_append,
            List.cons.injEq]
          constructor
          · rintro ⟨rfl, r, rfl⟩
            exact ⟨r, rfl, rfl⟩
          · rintro ⟨r, rfl, rfl⟩
            exact ⟨rfl, r, rfl⟩

theorem hasSub_iff (h s : List Char) :
    hasSub h s = true ↔ ∃ l r, h = l ++ s ++ r := by
  induction h with
  | nil =>
      simp only [hasSub, List.isEmpty_iff]
      constructor
      · rintro rfl
        exact ⟨[], [], rfl⟩
      · rintro ⟨l, r, he⟩
        rcases List.append_eq_nil.mp (List.append_eq_nil.mp he.symm).1 with ⟨-, h2⟩
        exact h2
  | cons c t ih =>
      simp only [hasSub, Bool.or_eq_true, leadsWith_iff, ih]
      constructor
      · rintro (⟨r, hr⟩ | ⟨l, r, hr⟩)
        · exact ⟨[], r, by simpa using hr⟩
        · exact ⟨c :: l, r, by simp [hr]⟩
      · rintro ⟨l, r, hr⟩
        cases l with
        | nil => exact Or.inl ⟨r, by simpa using hr⟩
        | cons x xs =>
            right
            rw [List.cons_append, List.cons_append] at hr
            injection hr with h1 h2
            exact ⟨xs, r, by simpa using h2⟩

theorem trackMatches_iff (q : String) (t : Track) :
    trackMatches q t = true ↔ SpecMatch q t := by
  simp [trackMatches, SpecMatch, strIncludes, OccursIn, Bool.or_eq_true, hasSub_iff]

/-- C4: for every search string, the filtered track list equals the full
track list when the search string is empty, is always a sublist of the
full list, and contains exactly the tracks whose title or artist contains
the search string as a case-insensitive substring. -/
theorem filteredTracks_spec (q : String) :
    (q = "" → filteredTracks q = sampleTracks) ∧
    List.Sublist (filteredTracks q) sampleTracks ∧
    ∀ t : Track, t ∈ filteredTracks q ↔ t ∈ sampleTracks ∧ SpecMatch q t := by
  refine ⟨?_, ?_, ?_⟩
  · rintro rfl
    decide
  · exact List.filter_sublist sampleTracks
  · intro t
    simp [filteredTracks, List.mem_filter, trackMatches_iff]

/-- Witness for C4: at the concrete empty search string the filter
returns the full sample list. -/
theorem filteredTracks_spec_witness : filteredTracks "" = sampleTracks :=
  (filteredTracks_spec "").1 rfl

/-- C9: the completion handler sets the is-playing flag to false and
leaves elapsed time, duration, volume, active track, search string and
the native handle unchanged. -/
theorem handleEnded_spec (s : PlayerState) :
    (handleEnded s).isPlaying = false ∧
    (handleEnded s).currentTime = s.currentTime ∧
    (handleEnded s).duration = s.duration ∧
    (handleEnded s).volume = s.volume ∧
    (handleEnded s).currentTrack = s.currentTrack ∧
    (handleEnded s).searchQuery = s.searchQuery ∧
    (handleEnded s).audio = s.audio :=
  ⟨rfl, rfl, rfl, rfl, rfl, rfl, rfl⟩

/-- C8: with the native handle absent, the play/pause toggle and the seek
handler change nothing (and issue no native call), while the
volume-change handler still updates the displayed volume and nothing
else. -/
theorem null_handle_frame (s : PlayerState) (h : s.audio = none) (v w : ℚ) :
    togglePlay s = (s, []) ∧
    handleSeek v s = s ∧
    handleVolumeChange w s = { s with volume := w } := by
  refine ⟨?_, ?_, ?_⟩ <;> simp [togglePlay, handleSeek, handleVolumeChange, h]

/-- Witness for C8 at a concrete detached state. -/
theorem null_handle_frame_witness :
    togglePlay cxStateNoAudio = (cxStateNoAudio, []) ∧
    handleSeek 7 cxStateNoAudio = cxStateNoAudio ∧
    handleVolumeChange (1/4) cxStateNoAudio = { cxStateNoAudio with volume := 1/4 } :=
  null_handle_frame cxStateNoAudio rfl 7 (1/4)

/-- C6: the volume-change handler assigns the input value unchanged to the
displayed volume state, and, whenever the native handle is attached, to
the handle's volume as well; no other field changes. -/
theorem handleVolumeChange_spec (v : ℚ) (s : PlayerState) :
    (handleVolumeChange v s).volume = v ∧
    (∀ a, s.audio = some a →
      handleVolumeChange v s = { s with volume := v, audio := some { a with volume := v } }) := by
  cases ha : s.audio <;> simp [handleVolumeChange, ha]

/-- Witness for C6 at a concrete attached state. -/
theorem handleVolumeChange_spec_witness :
    (handleVolumeChange (3/4) cxState).volume = 3/4 ∧
    handleVolumeChange (3/4) cxState
      = { cxState with volume := 3/4, audio := some { cxAudio with volume := 3/4 } } :=
  ⟨(handleVolumeChange_spec (3/4) cxState).1,
   (handleVolumeChange_spec (3/4) cxState).2 cxAudio rfl⟩

/-- C5: selecting a track makes it the active track, resets the displayed
elapsed time to 0 and the is-playing flag to false, and, whenever the
native handle is attached, replaces the handle's source locator with the
track's URL. -/
theorem changeTrack_spec (t : Track) (s : PlayerState) :
    (changeTrack t s).currentTrack = t ∧
    (changeTrack t s).isPlaying = false ∧
    (changeTrack t s).currentTime = 0 ∧
    (∀ a, s.audio = some a →
      (changeTrack t s).audio = some { a with src := t.url }) := by
  cases ha : s.audio <;> simp [changeTrack, ha]

/-- Witness for C5: selecting the second sample track from the concrete
attached state. -/
theorem changeTrack_spec_witness :
    (changeTrack { id := 2, title := "Track 2", artist := "Artist 2", url := "u2" } cxState).currentTrack
      = { id := 2, title := "Track 2", artist := "Artist 2", url := "u2" } ∧
    (changeTrack { id := 2, title := "Track 2", artist := "Artist 2", url := "u2" } cxState).isPlaying = false ∧
    (changeTrack { id := 2, title := "Track 2", artist := "Artist 2", url := "u2" } cxState).currentTime = 0 ∧
    (changeTrack { id := 2, title := "Track 2", artist := "Artist 2", url := "u2" } cxState).audio
      = some { cxAudio with src := "u2" } :=
  ⟨(changeTrack_spec _ cxState).1, (changeTrack_spec _ cxState).2.1,
   (changeTrack_spec _ cxState).2.2.1, (changeTrack_spec _ cxState).2.2.2 cxAudio rfl⟩

/-- Counterexample to C3 as stated: in the concrete state whose native
handle is absent, the toggle leaves the is-playing flag at `false`
(it does not invert it) and issues no native call at all. -/
theorem togglePlay_cx :
    cxStateNoAudio.isPlaying = false ∧
    (togglePlay cxStateNoAudio).1.isPlaying = false ∧
    (togglePlay cxStateNoAudio).2 = [] :=
  ⟨rfl, rfl, rfl⟩

/-- C3 (amended): whenever the native handle is present, the toggle
inverts the displayed is-playing flag, changes nothing else, and issues
exactly one native call: `pause` when the flag was true, `play` when it
was false. -/
theorem togglePlay_spec (s : PlayerState) (a : AudioElement) (h : s.audio = some a) :
    (togglePlay s).1 = { s with isPlaying := !s.isPlaying } ∧
    (togglePlay s).2 = [if s.isPlaying then NativeCall.pause else NativeCall.play] := by
  cases hp : s.isPlaying <;> simp [togglePlay, h, hp]

/-- Witness for C3's amended theorem at the concrete attached state
(flag false, so exactly one `play()` call). -/
theorem togglePlay_spec_witness :
    (togglePlay cxState).1 = { cxState with isPlaying := !cxState.isPlaying } ∧
    (togglePlay cxState).2 = [if cxState.isPlaying then NativeCall.pause else NativeCall.play] :=
  togglePlay_spec cxState cxAudio rfl

/-- Counterexample to C1 as stated: seeking to 20 in the concrete
attached state of duration 10 sets the displayed time to 20, not to the
clamped value `max 0 (min 20 10) = 10`. -/
theorem handleSeek_cx :
    cxState.duration = 10 ∧
    (handleSeek 20 cxState).currentTime = 20 ∧
    (handleSeek 20 cxState).currentTime ≠ max 0 (min 20 cxState.duration) := by
  refine ⟨rfl, by simp [handleSeek, cxState, cxAudio], ?_⟩
  have h1 : (handleSeek 20 cxState).currentTime = 20 := by
    simp [handleSeek, cxState, cxAudio]
  rw [h1]
  show (20 : ℚ) ≠ max 0 (min 20 cxState.duration)
  norm_num [cxState]

/-- C1 (amended): whenever the native handle is present, the seek handler
sets both the handle's position and the displayed elapsed time to the
requested value unchanged, performing no clamping of its own; when the
requested value already lies in `[0, duration]` — as the seek slider's
`min`/`max` bounds guarantee — that value coincides with the value
clamped to `[0, duration]`. -/
theorem handleSeek_spec (v : ℚ) (s : PlayerState) (a : AudioElement) (h : s.audio = some a) :
    (handleSeek v s).currentTime = v ∧
    (handleSeek v s).audio = some { a with currentTime := v } ∧
    (0 ≤ v → v ≤ s.duration → v = max 0 (min v s.duration)) := by
  refine ⟨by simp [handleSeek, h], by simp [handleSeek, h], ?_⟩
  intro h0 hd
  rw [min_eq_left hd, max_eq_right h0]

/-- Witness for C1's amended theorem: seeking to 5 in the concrete
attached state of duration 10. -/
theorem handleSeek_spec_witness :
    (handleSeek 5 cxState).currentTime = 5 ∧
    (handleSeek 5 cxState).audio = some { cxAudio with currentTime := 5 } ∧
    (0 ≤ (5 : ℚ) → (5 : ℚ) ≤ cxState.duration → (5 : ℚ) = max 0 (min 5 cxState.duration)) :=
  handleSeek_spec 5 cxState cxAudio rfl

/-- Counterexample to C2 as stated: the concrete attached state satisfies
the invariant, yet the volume-change handler applied to the input 2
produces a state whose volume is 2, outside `[0, 1]`. -/
theorem invariant_cx :
    Invariant cxState ∧ ¬ Invariant (handleVolumeChange 2 cxState) := by
  constructor
  · refine ⟨?_, ?_, ?_, ?_⟩ <;> norm_num [cxState]
  · intro hI
    have h2 : (handleVolumeChange 2 cxState).volume = 2 := by
      simp [handleVolumeChange, cxState, cxAudio]
    have := hI.2.1
    rw [h2] at this
    norm_num at this

/-- C2 (amended): every operation of the player preserves the invariant
(volume in `[0,1]`, elapsed time in `[0, duration]`) provided the seek
input lies in `[0, duration]` and the volume input lies in `[0,1]`, as
the sliders' `min`/`max` bounds guarantee; toggling, track selection and
search need no side condition.  Unconstrained seek or volume inputs can
break the invariant. -/
theorem invariant_preserved (s : PlayerState) (h : Invariant s) :
    Invariant (togglePlay s).1 ∧
    (∀ v : ℚ, 0 ≤ v → v ≤ s.duration → Invariant (handleSeek v s)) ∧
    (∀ v : ℚ, 0 ≤ v → v ≤ 1 → Invariant (handleVolumeChange v s)) ∧
    (∀ t : Track, Invariant (changeTrack t s)) ∧
    (∀ q : String, Invariant (setSearchQuery q s)) := by
  obtain ⟨h1, h2, h3, h4⟩ := h
  have hd : (0 : ℚ) ≤ s.duration := le_trans h3 h4
  refine ⟨?_, ?_, ?_, ?_, ?_⟩
  · cases ha : s.audio with
    | none =>
        have he : (togglePlay s).1 = s := by simp [togglePlay, ha]
        rw [he]; exact ⟨h1, h2, h3, h4⟩
    | some a =>
        have he : (togglePlay s).1 = { s with isPlaying := !s.isPlaying } := by
          cases hp : s.isPlaying <;> simp [togglePlay, ha, hp]
        rw [he]; exact ⟨h1, h2, h3, h4⟩
  · intro v hv0 hvd
    cases ha : s.audio with
    | none =>
        have he : handleSeek v s = s := by simp [handleSeek, ha]
        rw [he]; exact ⟨h1, h2, h3, h4⟩
    | some a =>
        have he : handleSeek v s
            = { s with currentTime := v, audio := some { a with currentTime := v } } := by
          simp [handleSeek, ha]
        rw [he]; exact ⟨h1, h2, hv0, hvd⟩
  · intro v hv0 hv1
    cases ha : s.audio with
    | none =>
        have he : handleVolumeChange v s = { s with volume := v } := by
          simp [handleVolumeChange, ha]
        rw [he]; exact ⟨hv0, hv1, h3, h4⟩
    | some a =>
        have he : handleVolumeChange v s
            = { s with volume := v, audio := some { a with volume := v } } := by
          simp [handleVolumeChange, ha]
        rw [he]; exact ⟨hv0, hv1, h3, h4⟩
  · intro t
    cases ha : s.audio with
    | none =>
        have he : changeTrack t s
            = { s with currentTrack := t, isPlaying := false, currentTime := 0 } := by
          simp [changeTrack, ha]
        rw [he]; exact ⟨h1, h2, le_refl 0, hd⟩
    | some a =>
        have he : changeTrack t s
            = { s with currentTrack := t, isPlaying := false, currentTime := 0,
                       audio := some { a with src := t.url } } := by
          simp [changeTrack, ha]
        rw [he]; exact ⟨h1, h2, le_refl 0, hd⟩
  · intro q
    exact ⟨h1, h2, h3, h4⟩

/-- Witness for C2's amended theorem at the concrete attached state, with
seek input 5 in `[0, 10]` and volume input 1 in `[0, 1]`. -/
theorem invariant_preserved_witness :
    Invariant (togglePlay cxState).1 ∧
    Invariant (handleSeek 5 cxState) ∧
    Invariant (handleVolumeChange 1 cxState) := by
  have hI : Invariant cxState := by
    refine ⟨?_, ?_, ?_, ?_⟩ <;> norm_num [cxState]
  have h := invariant_preserved cxState hI
  exact ⟨h.1, h.2.1 5 (by norm_num) (by norm_num [cxState]), h.2.2.1 1 (by norm_num) (by norm_num)⟩

/-- C7: the documented resume operation succeeds, resuming playback,
exactly when the player is paused, and the documented pause operation
succeeds, pausing playback, exactly when the player is not paused; in
the respective other state the operation throws an error and returns no
new state, so the player state is unchanged. -/
theorem api_resume_pause_spec (p : ApiPlayer) :
    ((∃ q, apiResume p = Except.ok q) ↔ p.paused = true) ∧
    ((∃ q, apiPause p = Except.ok q) ↔ p.paused = false) ∧
    (p.paused = true → apiResume p = Except.ok { p with paused := false }) ∧
    (p.paused = false → apiPause p = Except.ok { p with paused := true }) ∧
    (p.paused = false → ∃ e, apiResume p = Except.error e) ∧
    (p.paused = true → ∃ e, apiPause p = Except.error e) := by
  cases hp : p.paused <;> simp [apiResume, apiPause, hp]

/-- Witness for C7, applying the theorem in a paused and in a playing
concrete state. -/
theorem api_resume_pause_spec_witness :
    apiResume ⟨true, "song.mp3", 75⟩ = Except.ok ⟨false, "song.mp3", 75⟩ ∧
    (∃ e, apiPause (⟨true, "song.mp3", 75⟩ : ApiPlayer) = Except.error e) ∧
    apiPause ⟨false, "song.mp3", 75⟩ = Except.ok ⟨true, "song.mp3", 75⟩ ∧
    (∃ e, apiResume (⟨false, "song.mp3", 75⟩ : ApiPlayer) = Except.error e) :=
  ⟨(api_resume_pause_spec ⟨true, "song.mp3", 75⟩).2.2.1 rfl,
   (api_resume_pause_spec ⟨true, "song.mp3", 75⟩).2.2.2.2.2 rfl,
   (api_resume_pause_spec ⟨false, "song.mp3", 75⟩).2.2.2.1 rfl,
   (api_resume_pause_spec ⟨false, "song.mp3", 75⟩).2.2.2.2.1 rfl⟩

theorem floor_jsMod_sixty (t : ℚ) (h : 0 ≤ t) : ⌊jsMod t 60⌋ = ⌊t⌋ % 60 := by
  have h60 : (0 : ℚ) < 60 := by norm_num
  have hq : 0 ≤ t / 60 := div_nonneg h (le_of_lt h60)
  have htr : jsTrunc (t / 60) = ⌊t / 60⌋ := if_pos hq
  have hmod : jsMod t 60 = t - ((60 * ⌊t / 60⌋ : ℤ) : ℚ) := by
    rw [jsMod, htr]
    push_cast
    ring
  have hfloor : ⌊jsMod t 60⌋ = ⌊t⌋ - 60 * ⌊t / 60⌋ := by
    rw [hmod, Int.floor_sub_int]
  have hlow : 60 * ⌊t / 60⌋ ≤ ⌊t⌋ := by
    apply Int.le_floor.mpr
    have := (le_div_iff₀ h60).mp (Int.floor_le (t / 60))
    push_cast
    linarith
  have hhigh : ⌊t⌋ < 60 * ⌊t / 60⌋ + 60 := by
    apply Int.floor_lt.mpr
    have := (div_lt_iff₀ h60).mp (Int.lt_floor_add_one (t / 60))
    push_cast
    linarith
  omega

theorem padTwo_eq (k : ℤ) (h0 : 0 ≤ k) (h60 : k < 60) :
    padStart2 (toString k) = if k < 10 then "0" ++ toString k else toString k := by
  interval_cases k <;> rfl

/-- C10: for every non-negative time value `t`, the time formatter
returns the decimal rendering of `⌊t/60⌋`, then a colon, then the
seconds `⌊t⌋ % 60` rendered with a leading zero exactly when below 10
(hence always as two digits). -/
theorem formatTime_spec (t : ℚ) (h : 0 ≤ t) :
    formatTime t = toString ⌊t / 60⌋ ++ ":" ++
      (if ⌊t⌋ % 60 < 10 then "0" ++ toString (⌊t⌋ % 60) else toString (⌊t⌋ % 60)) := by
  show toString ⌊t / 60⌋ ++ ":" ++ padStart2 (toString ⌊jsMod t 60⌋) = _
  rw [floor_jsMod_sixty t h,
    padTwo_eq (⌊t⌋ % 60) (Int.emod_nonneg ⌊t⌋ (by norm_num)) (Int.emod_lt_of_pos ⌊t⌋ (by norm_num))]

/-- Witness for C10 at `t = 125`: the theorem applies and the rendered
string is "2:05". -/
theorem formatTime_spec_witness :
    formatTime 125 = toString ⌊(125 : ℚ) / 60⌋ ++ ":" ++
      (if ⌊(125 : ℚ)⌋ % 60 < 10 then "0" ++ toString (⌊(125 : ℚ)⌋ % 60)
       else toString (⌊(125 : ℚ)⌋ % 60)) ∧
    formatTime 125 = "2:05" := by
  refine ⟨formatTime_spec 125 (by norm_num), ?_⟩
  rw [formatTime_spec 125 (by norm_num)]
  norm_num
  decide
